import Mathlib

/-!
Verification of the knowledge retrieval and evidence-ranking subsystem of the
ai-town-board repository (src/knowledge/base_knowledge_provider.py and
src/knowledge/meeting_corpus.py).

Python strings are modelled as `List Char`; Python ints as `Nat` (all the
relevant quantities — lengths, offsets, sizes — are non-negative); Python
floats as `ℝ` (the claims settled here concern only signs and guard
conditions, which IEEE arithmetic preserves exactly: sums of non-negative
terms, division by a positive value and square roots of positive values are
non-negative in floating point just as in ℝ). Python dicts are modelled as
association lists in insertion order. The `while` loop of `_chunk_text` is
modelled as a fuel-indexed iteration (`chunkTextLoop`); `none` means the
fuel was exhausted before the loop exited, and the termination theorem shows
`text.length + 1` fuel always suffices. Filesystem-dependent steps
(the rebuild branch of `index_corpus`, `_get_index_size_mb`, the
`pdf_segment` glob) are modelled as explicit parameters; fields of the
Python dataclasses that no claim refers to (embeddings, participants,
attachments, `pdf_segment`, `page_range`, keyword lists on agenda items)
are omitted from the corresponding structures.
-/

namespace TownBoard

/-! ## Python string primitives -/

/-- Characters stripped by Python's `str.strip()` and matched by `\s`
(ASCII range, which is all the repository's data uses). -/
def pyIsSpace (c : Char) : Bool :=
  c = ' ' || c = '\t' || c = '\n' || c = '\r' || c = Char.ofNat 11 || c = Char.ofNat 12

/-- Python `str.strip()`: remove leading and trailing whitespace. -/
def pyStrip (s : List Char) : List Char :=
  ((s.dropWhile pyIsSpace).reverse.dropWhile pyIsSpace).reverse

/-- Python `str.lower()` (ASCII). -/
def pyLower (s : List Char) : List Char := s.map Char.toLower

/-- Python `sub in s`: contiguous-substring test. -/
def pyIn (sub : List Char) : List Char → Bool
  | [] => sub.isEmpty
  | c :: rest => sub.isPrefixOf (c :: rest) || pyIn sub rest

/-- One step of Python `str.split()` (no separator): accumulate the current
word (reversed in `acc`), emitting a word at each whitespace run. -/
def pySplitGo : List Char → List Char → List (List Char)
  | [], acc => if acc.isEmpty then [] else [acc.reverse]
  | c :: rest, acc =>
    if pyIsSpace c then
      if acc.isEmpty then pySplitGo rest [] else acc.reverse :: pySplitGo rest []
    else pySplitGo rest (c :: acc)

/-- Python `str.split()` with no arguments: split on whitespace runs,
discarding empty fields. -/
def pySplit (s : List Char) : List (List Char) := pySplitGo s []

/-- Python `s.count(sub)`: number of non-overlapping occurrences of `sub`
in `s`, scanning left to right.  (Only ever called with `sub.length ≥ 3`;
the `sub.length ≠ 0` guard makes the recursion well-founded and agrees
with CPython on every such call.) -/
def countOcc (sub : List Char) : List Char → Nat
  | [] => 0
  | c :: rest =>
    if sub.isPrefixOf (c :: rest) ∧ sub.length ≠ 0 then
      1 + countOcc sub (rest.drop (sub.length - 1))
    else countOcc sub rest
termination_by s => s.length
decreasing_by
  · simp only [List.length_drop, List.length_cons]; omega
  · simp only [List.length_cons]; omega

/-- The backquote character (code 96). -/
def backquote : Char := Char.ofNat 96

/-! ## Chunker (`KnowledgeProvider._chunk_text`,
    base_knowledge_provider.py lines 117-154) -/

/-- Boundary characters of the backward search: `' \n\t.!?;'` (line 143). -/
def isBoundaryChar (c : Char) : Bool :=
  c = ' ' || c = '\n' || c = '\t' || c = '.' || c = '!' || c = '?' || c = ';'

/-- The `for i in range(min(100, chunk_size // 4))` search of lines 140-145:
starting from look-back offset `i` with `rem` iterations left, return the
adjusted `end` (`end - i + 1`) for the first boundary character found, or
`none` if the loop breaks out (window exhausted) or runs out of iterations. -/
def lookBack (text : List Char) (start e0 : Nat) : Nat → Nat → Option Nat
  | _, 0 => none
  | i, rem + 1 =>
    if e0 - i ≤ start then none
    else if isBoundaryChar (text.getD (e0 - i) ' ') then some (e0 - i + 1)
    else lookBack text start e0 (i + 1) rem

/-- The final `end` for the window starting at `start`: `start + chunk_size`,
adjusted by the backward boundary search when the window's right edge falls
strictly inside the text (lines 135-145). -/
def chunkEnd (text : List Char) (chunkSize start : Nat) : Nat :=
  let e0 := start + chunkSize
  if e0 < text.length then
    match lookBack text start e0 0 (min 100 (chunkSize / 4)) with
    | some e1 => e1
    | none => e0
  else e0

/-- The chunk emitted for the window at `start`: `text[start:end].strip()`
(line 147). -/
def chunkAt (text : List Char) (chunkSize start : Nat) : List Char :=
  pyStrip ((text.drop start).take (chunkEnd text chunkSize start - start))

/-- The loop-variable update `start = max(start + 1, end - overlap)`
(line 152). -/
def nextStart (text : List Char) (chunkSize overlap start : Nat) : Nat :=
  max (start + 1) (chunkEnd text chunkSize start - overlap)

/-- Fuel-indexed model of the `while start < len(text)` loop of lines
134-152.  `none` means the loop did not exit within `fuel` iterations;
empty chunks are discarded exactly as by the `if chunk:` test (line 148). -/
def chunkTextLoop (text : List Char) (chunkSize overlap : Nat) :
    Nat → Nat → Option (List (List Char))
  | _, 0 => none
  | start, fuel + 1 =>
    if start < text.length then
      match chunkTextLoop text chunkSize overlap
          (nextStart text chunkSize overlap start) fuel with
      | none => none
      | some rest =>
        some (if (chunkAt text chunkSize start).isEmpty then rest
              else chunkAt text chunkSize start :: rest)
    else some []

/-- `KnowledgeProvider._chunk_text(text, chunk_size, overlap)`: texts no
longer than `chunk_size` are returned whole (line 128-129); otherwise the
loop runs from `start = 0`.  `text.length + 1` fuel is provably sufficient
(the termination theorem below). -/
def chunkText (text : List Char) (chunkSize overlap : Nat) : List (List Char) :=
  if text.length ≤ chunkSize then [text]
  else (chunkTextLoop text chunkSize overlap 0 (text.length + 1)).getD []

/-! ## Agenda item reconstruction (`MeetingCorpus._create_agenda_item`
    and `_extract_description`, meeting_corpus.py lines 248-323) -/

/-- Uppercase ASCII letter (`[A-Z]`). -/
def isUpperAZ (c : Char) : Bool := 'A' ≤ c && c ≤ 'Z'

/-- `re.search(r'(\d+[A-Z]?)', s)` (line 256): the leftmost maximal digit
run, together with one following uppercase letter if present. -/
def findItemNumber : List Char → Option (List Char)
  | [] => none
  | c :: rest =>
    if c.isDigit then
      some (((c :: rest).takeWhile Char.isDigit) ++
        (match (c :: rest).dropWhile Char.isDigit with
         | a :: _ => if isUpperAZ a then [a] else []
         | [] => []))
    else findItemNumber rest

/-- One attempt of `re.search(r'--(\d+)-([A-Z])-', s)` anchored at the head
of `s`: two dashes, a nonempty digit run, a dash, an uppercase letter, a
dash.  Returns `group(1) ++ group(2)` as concatenated by line 260. -/
def dashPatternAt (s : List Char) : Option (List Char) :=
  match s with
  | '-' :: '-' :: rest =>
    if (rest.takeWhile Char.isDigit).isEmpty then none
    else
      match rest.dropWhile Char.isDigit with
      | '-' :: u :: '-' :: _ =>
        if isUpperAZ u then some (rest.takeWhile Char.isDigit ++ [u]) else none
      | _ => none
  | _ => none

/-- `re.search(r'--(\d+)-([A-Z])-', s)` (line 258): leftmost match. -/
def findDashPattern : List Char → Option (List Char)
  | [] => none
  | c :: rest =>
    match dashPatternAt (c :: rest) with
    | some r => some r
    | none => findDashPattern rest

/-- Section classification from the (stripped) title, lines 267-276.
First match wins: "administrator", then "public hearing", then any of
"consider"/"approval"/"receipt", else "UNKNOWN". -/
def sectionFor (title : List Char) : String :=
  let t := pyLower title
  if pyIn ("administrator".toList) t then "ADMINISTRATIVE"
  else if pyIn ("public hearing".toList) t then "PUBLIC HEARINGS"
  else if pyIn ("consider".toList) t || pyIn ("approval".toList) t
      || pyIn ("receipt".toList) t then "NEW BUSINESS"
  else "UNKNOWN"

/-- The scan of `re.sub(r'#+\s*', '', s)` (line 309): each maximal `#` run
together with the following whitespace run is deleted.  Every step consumes
at least one character, so `fuel = s.length` (as supplied by
`removeHeaders`) always suffices; the recursion is structural on the fuel
so that concrete instances evaluate. -/
def removeHeadersGo : Nat → List Char → List Char
  | _, [] => []
  | 0, s => s
  | fuel + 1, c :: rest =>
    if c = '#' then
      removeHeadersGo fuel ((rest.dropWhile (fun d => d = '#')).dropWhile pyIsSpace)
    else c :: removeHeadersGo fuel rest

/-- `re.sub(r'#+\s*', '', s)` (line 309). -/
def removeHeaders (s : List Char) : List Char := removeHeadersGo s.length s

/-- The scan of `re.sub(r'\*\*([^*]+)\*\*', r'\1', s)` (line 310): leftmost
non-overlapping matches `**inner**` (inner nonempty, star-free) are
replaced by `inner`; on a failed match the scan advances one character.
Every step consumes at least one character, so `fuel = s.length` always
suffices. -/
def removeBoldGo : Nat → List Char → List Char
  | _, [] => []
  | 0, s => s
  | fuel + 1, '*' :: '*' :: rest2 =>
    if (rest2.takeWhile (fun d => d ≠ '*')).isEmpty then
      '*' :: removeBoldGo fuel ('*' :: rest2)
    else
      match rest2.dropWhile (fun d => d ≠ '*') with
      | '*' :: '*' :: after =>
        rest2.takeWhile (fun d => d ≠ '*') ++ removeBoldGo fuel after
      | _ => '*' :: removeBoldGo fuel ('*' :: rest2)
  | fuel + 1, c :: rest => c :: removeBoldGo fuel rest

/-- `re.sub(r'\*\*([^*]+)\*\*', r'\1', s)` (line 310). -/
def removeBold (s : List Char) : List Char := removeBoldGo s.length s

/-- The scan of `re.sub(r'`([^`]+)`', r'\1', s)` (line 311), with the
backtick written `backquote`: leftmost non-overlapping matches are replaced
by the inner text; on a failed match the scan advances one character.
Every step consumes at least one character, so `fuel = s.length` always
suffices. -/
def removeTicksGo : Nat → List Char → List Char
  | _, [] => []
  | 0, s => s
  | fuel + 1, c :: rest =>
    if c = backquote then
      if (rest.takeWhile (fun d => d ≠ backquote)).isEmpty then
        c :: removeTicksGo fuel rest
      else
        match rest.dropWhile (fun d => d ≠ backquote) with
        | _ :: after => rest.takeWhile (fun d => d ≠ backquote) ++ removeTicksGo fuel after
        | [] => c :: removeTicksGo fuel rest
    else c :: removeTicksGo fuel rest

/-- `re.sub(r'`([^`]+)`', r'\1', s)` (line 311). -/
def removeTicks (s : List Char) : List Char := removeTicksGo s.length s

/-- Python `s.split('\n\n')` (line 314): split at each non-overlapping
occurrence of two newlines, scanning left to right; `acc` holds the
current field reversed. -/
def splitParasGo : List Char → List Char → List (List Char)
  | [], acc => [acc.reverse]
  | '\n' :: '\n' :: rest, acc => acc.reverse :: splitParasGo rest []
  | c :: rest, acc => splitParasGo rest (c :: acc)

/-- `content.split('\n\n')`. -/
def splitParas (s : List Char) : List (List Char) := splitParasGo s []

/-- The boilerplate test of line 318: any of the four skip substrings
occurs in the lowercased paragraph. -/
def isBoilerplate (p : List Char) : Bool :=
  let pl := pyLower p
  pyIn ("document information".toList) pl
    || pyIn ("meeting document context".toList) pl
    || pyIn ("source:".toList) pl
    || pyIn ("pages:".toList) pl

/-- The paragraph loop of lines 316-323: skip boilerplate paragraphs,
return the first remaining paragraph longer than 50 characters, truncated
to 200 characters plus an ellipsis when longer than 200. -/
def firstDescPara : List (List Char) → Option (List Char)
  | [] => none
  | p :: rest =>
    if isBoilerplate p then firstDescPara rest
    else if 50 < p.length then
      some (if 200 < p.length then p.take 200 ++ ("...".toList) else p)
    else firstDescPara rest

/-- `MeetingCorpus._extract_description(content)` (lines 306-323). -/
def extractDescription (content : List Char) : Option (List Char) :=
  let clean := removeTicks (removeBold (removeHeaders content))
  firstDescPara (((splitParas clean).map pyStrip).filter (fun p => !p.isEmpty))

/-- The fields of the `AgendaItem` dataclass that the verified claims refer
to (`section` is a Lean keyword, hence the field name `section_`).
Fields never read by any claim (pdf_segment, page_range, page_count,
attachments, metadata, keywords, participants, action_required) are
omitted; `pdf_segment` in particular depends on a filesystem glob. -/
structure AgendaItem where
  id : List Char
  section_ : String
  item_number : List Char
  title : List Char
  description : Option (List Char)
  markdown_file : List Char
deriving DecidableEq

/-- Construction of the `AgendaItem` on lines 266-300, given an already
extracted item number. -/
def buildAgendaItem (item_number segment_title filename content : List Char) :
    AgendaItem :=
  let title := pyStrip segment_title
  { id := item_number
    section_ := sectionFor title
    item_number := item_number
    title := title
    description := extractDescription content
    markdown_file := filename }

/-- `MeetingCorpus._create_agenda_item(doc_info, content)` (lines 248-304)
as a function of `doc_info['segment_title']`, `doc_info['filename']` and
the document content: extract the item number from the segment title, fall
back to the `--<digits>-<letter>-` pattern in the filename, and return
`none` when both fail (lines 256-262). -/
def createAgendaItem (segment_title filename content : List Char) :
    Option AgendaItem :=
  match findItemNumber segment_title, findDashPattern filename with
  | some n, _ => some (buildAgendaItem n segment_title filename content)
  | none, some n => some (buildAgendaItem n segment_title filename content)
  | none, none => none

/-! ## Relevance scoring and search (`MeetingCorpus.search` and
    `_calculate_relevance_score`, meeting_corpus.py lines 104-154 and
    400-453) -/

/-- The fields of the `DocumentChunk` dataclass used by scoring, filtering
and `Evidence` construction.  `metadata` is the chunk's metadata dict as an
association list (the `embedding` field, always `None` in this design, is
omitted). -/
structure DocumentChunk where
  chunk_id : String
  file_path : List Char
  content : List Char
  start_char : Nat
  end_char : Nat
  metadata : List (String × List Char)
  keywords : List (List Char)
deriving DecidableEq

/-- A query-time `Evidence` result object (agent_schemas.py lines 21-31). -/
structure Evidence where
  chunk_id : String
  file_path : List Char
  content : List Char
  relevance_score : ℝ
  source_type : List Char
  anchor : Option (List Char)
  start_char : Nat
  end_char : Nat

/-- Python `metadata.get(key)` on the association-list model of a dict. -/
def metaGet (m : List (String × List Char)) (k : String) : Option (List Char) :=
  (m.find? (fun kv => kv.1 == k)).map Prod.snd

/-- The per-word frequency contribution of lines 411-419: words shorter
than 3 characters are skipped; otherwise `min(count * 0.5, 2.0)` is added
when the word occurs in the lowercased content. -/
noncomputable def wordScore (contentLower word : List Char) : ℝ :=
  if word.length < 3 then 0
  else if 0 < countOcc word contentLower then
    min ((countOcc word contentLower : ℝ) * 0.5) 2.0
  else 0

/-- The document-type bonus of lines 427-432 (`+2.0` for index chunks on
overview-style queries, `+1.5` for agenda-item chunks on item-style
queries). -/
noncomputable def docTypeBonus (query : List Char) (chunk : DocumentChunk) : ℝ :=
  let docType := (metaGet chunk.metadata "document_type").getD []
  if docType = ("index".toList)
      ∧ (pyIn ("agenda".toList) query || pyIn ("what".toList) query
         || pyIn ("overview".toList) query) = true then 2.0
  else if docType = ("agenda_item".toList)
      ∧ (pyIn ("item".toList) query || pyIn ("specific".toList) query) = true then 1.5
  else 0

/-- The pre-normalization score of `_calculate_relevance_score` (lines
402-432): exact-phrase bonus, per-word frequency scores, keyword-overlap
bonuses, document-type bonus.  `query` is the already-lowercased query
string passed by `search` (line 126). -/
noncomputable def rawRelevanceScore (query : List Char) (chunk : DocumentChunk) : ℝ :=
  let contentLower := pyLower chunk.content
  let queryWords := pySplit query
  (if pyIn query contentLower then (3.0 : ℝ) else 0)
    + (queryWords.map (fun w => wordScore contentLower w)).sum
    + (chunk.keywords.map (fun kw =>
        (queryWords.map (fun w =>
          if pyIn (pyLower w) (pyLower kw) then (1.0 : ℝ) else 0)).sum)).sum
    + docTypeBonus query chunk

/-- `MeetingCorpus._calculate_relevance_score(query, chunk)` (lines
400-438): the raw score, divided by `(len(content)/1000) ** 0.5` only when
the content is nonempty (lines 434-436; `** 0.5` is the square root). -/
noncomputable def calcRelevanceScore (query : List Char) (chunk : DocumentChunk) : ℝ :=
  if 0 < chunk.content.length then
    rawRelevanceScore query chunk / Real.sqrt ((chunk.content.length : ℝ) / 1000)
  else rawRelevanceScore query chunk

/-- `MeetingCorpus._apply_filters(chunk, filters)` (lines 440-453): the
`document_type` filter is an exact match against the chunk metadata, the
`agenda_item_id` filter a substring match against the chunk's filename
metadata, and unrecognized keys are ignored. -/
def applyFilters (chunk : DocumentChunk) (filters : List (String × List Char)) : Bool :=
  filters.all (fun kv =>
    if kv.1 == "document_type" then
      metaGet chunk.metadata "document_type" == some kv.2
    else if kv.1 == "agenda_item_id" then
      pyIn kv.2 ((metaGet chunk.metadata "filename").getD [])
    else true)

/-- The in-memory state of a `MeetingCorpus` instance: the `indexed` flag
(base_knowledge_provider.py line 37) and the `documents` / `chunks` /
`agenda_items` indices (meeting_corpus.py lines 52-54), with dicts as
association lists in insertion order.  Documents are modelled by their
(filename, content) pairs. -/
structure MeetingCorpusState where
  corpus_id : String
  indexed : Bool
  documents : List (List Char × List Char)
  chunks : List (String × DocumentChunk)
  agenda_items : List AgendaItem
deriving DecidableEq

/-- `MeetingCorpus.index_corpus(source_paths, force_rebuild)` (lines
60-102).  The early return of lines 71-73 (already indexed, not forcing)
is pure; the remaining body reads and writes the filesystem and is
modelled by the `rebuild` parameter, which returns the success flag and
the updated in-memory state. -/
def indexCorpus (rebuild : MeetingCorpusState → Bool × MeetingCorpusState)
    (st : MeetingCorpusState) (forceRebuild : Bool) : Bool × MeetingCorpusState :=
  if st.indexed && !forceRebuild then (true, st)
  else rebuild st

/-- The scoring loop of `search` (lines 122-146): for each chunk in
insertion order, compute its relevance score; keep it only when the score
is strictly positive and, when a nonempty filter dict was supplied, the
filters pass; build the `Evidence` object of lines 134-144. -/
noncomputable def scoreChunks (st : MeetingCorpusState) (queryLower : List Char)
    (filters : List (String × List Char)) : List Evidence :=
  st.chunks.filterMap (fun ck =>
    if 0 < calcRelevanceScore queryLower ck.2 then
      if filters ≠ [] ∧ ¬ applyFilters ck.2 filters then none
      else some
        { chunk_id := ck.1
          file_path := ck.2.file_path
          content := ck.2.content
          relevance_score := calcRelevanceScore queryLower ck.2
          source_type := (metaGet ck.2.metadata "document_type").getD ("unknown".toList)
          anchor := metaGet ck.2.metadata "anchor"
          start_char := ck.2.start_char
          end_char := ck.2.end_char }
    else none)

/-- Stable insertion into a descending-by-score list, modelling where
Python's stable `list.sort(key=..., reverse=True)` places an element
relative to the already-sorted elements that followed it. -/
noncomputable def insertByScoreDesc (e : Evidence) : List Evidence → List Evidence
  | [] => [e]
  | b :: l =>
    if b.relevance_score ≤ e.relevance_score then e :: b :: l
    else b :: insertByScoreDesc e l

/-- `scored_chunks.sort(key=lambda x: x.relevance_score, reverse=True)`
(line 149): the stable descending sort by relevance score. -/
noncomputable def sortByScoreDesc : List Evidence → List Evidence
  | [] => []
  | e :: l => insertByScoreDesc e (sortByScoreDesc l)

/-- The descending-score relation the search results are sorted by. -/
def scoreGE (a b : Evidence) : Prop := b.relevance_score ≤ a.relevance_score

/-- `MeetingCorpus.search(query, filters, top_k)` (lines 104-154): if the
corpus is not indexed, first attempt `index_corpus()` (default arguments)
and return `[]` when it fails (lines 115-118); otherwise score all chunks
against the lowercased query, sort descending by score, and return the
first `top_k` results. -/
noncomputable def search (rebuild : MeetingCorpusState → Bool × MeetingCorpusState)
    (st : MeetingCorpusState) (query : List Char)
    (filters : List (String × List Char)) (topK : Nat) : List Evidence :=
  if st.indexed then
    (sortByScoreDesc (scoreChunks st (pyLower query) filters)).take topK
  else
    let r := indexCorpus rebuild st false
    if r.1 then (sortByScoreDesc (scoreChunks r.2 (pyLower query) filters)).take topK
    else []

/-- The statistics record of `KnowledgeProvider.get_corpus_stats`
(base_knowledge_provider.py lines 88-100). -/
structure CorpusStats where
  corpus_id : String
  indexed : Bool
  document_count : Nat
  chunk_count : Nat
  index_size_mb : ℚ
deriving DecidableEq

/-- `get_corpus_stats()` (lines 88-100): `_get_document_count` and
`_get_chunk_count` are the lengths of the in-memory indices
(meeting_corpus.py lines 570-576); `_get_index_size_mb` sums on-disk file
sizes (lines 578-588) and is modelled by the `indexSizeMb` parameter. -/
def getCorpusStats (st : MeetingCorpusState) (indexSizeMb : ℚ) : CorpusStats :=
  { corpus_id := st.corpus_id
    indexed := st.indexed
    document_count := st.documents.length
    chunk_count := st.chunks.length
    index_size_mb := indexSizeMb }

/-! ## Concrete instances used by counterexamples and witnesses -/

/-- A rebuild oracle that always fails, leaving the state unchanged. -/
def rebuildFail : MeetingCorpusState → Bool × MeetingCorpusState :=
  fun st => (false, st)

/-- An already-indexed corpus state with empty indices. -/
def emptyIndexedState : MeetingCorpusState :=
  { corpus_id := "meeting_test"
    indexed := true
    documents := []
    chunks := []
    agenda_items := [] }

/-- A never-indexed corpus state with empty indices. -/
def emptyUnindexedState : MeetingCorpusState :=
  { corpus_id := "meeting_test"
    indexed := false
    documents := []
    chunks := []
    agenda_items := [] }

/-- The segment title of the §8 scenario of the specification. -/
def scenarioTitle : List Char := "5B - Permit Application".toList

/-- The filename of the §8 scenario of the specification. -/
def scenarioFilename : List Char := "5b-permit-application.md".toList

/-- A document content for the §8 scenario: one substantial paragraph of
102 characters beginning "The applicant seeks approval for". -/
def scenarioContent : List Char :=
  ("The applicant seeks approval for construction of a new deck " ++
   "at the property located at 12 Main Street.").toList

/-! ## Helper lemmas about the chunker -/

theorem pyStrip_length_le (s : List Char) : (pyStrip s).length ≤ s.length := by
  have h1 := (List.dropWhile_suffix (l := s) pyIsSpace).sublist.length_le
  have h2 := (List.dropWhile_suffix
    (l := (s.dropWhile pyIsSpace).reverse) pyIsSpace).sublist.length_le
  simp only [pyStrip, List.length_reverse] at h1 h2 ⊢
  omega

theorem lookBack_le (text : List Char) (start e0 : Nat) :
    ∀ rem i e1, lookBack text start e0 i rem = some e1 → e1 ≤ e0 + 1 := by
  intro rem
  induction rem with
  | zero => intro i e1 h; simp [lookBack] at h
  | succ rem ih =>
    intro i e1 h
    simp only [lookBack] at h
    split_ifs at h with h1 h2
    · injection h with h3
      omega
    · exact ih (i + 1) e1 h

theorem chunkEnd_le (text : List Char) (chunkSize start : Nat) :
    chunkEnd text chunkSize start ≤ start + chunkSize + 1 := by
  rw [chunkEnd]
  split
  · split
    case _ e1 heq => exact (lookBack_le text start (start + chunkSize) _ 0 e1 heq)
    case _ => omega
  · omega

theorem chunkAt_length_le (text : List Char) (chunkSize start : Nat) :
    (chunkAt text chunkSize start).length ≤ chunkSize + 1 := by
  have h1 := pyStrip_length_le
    ((text.drop start).take (chunkEnd text chunkSize start - start))
  have h2 : ((text.drop start).take (chunkEnd text chunkSize start - start)).length
      ≤ chunkEnd text chunkSize start - start :=
    List.length_take_le _ _
  have h3 := chunkEnd_le text chunkSize start
  simp only [chunkAt]
  omega

theorem nextStart_gt (text : List Char) (chunkSize overlap start : Nat) :
    start < nextStart text chunkSize overlap start := by
  simp only [nextStart]
  omega

theorem chunkTextLoop_isSome (text : List Char) (chunkSize overlap : Nat) :
    ∀ fuel start, text.length - start < fuel →
      (chunkTextLoop text chunkSize overlap start fuel).isSome = true := by
  intro fuel
  induction fuel with
  | zero => intro start h; omega
  | succ fuel ih =>
    intro start h
    simp only [chunkTextLoop]
    by_cases hlt : start < text.length
    · rw [if_pos hlt]
      have hnext := nextStart_gt text chunkSize overlap start
      have hfuel : text.length - nextStart text chunkSize overlap start < fuel := by
        omega
      have hIH := ih _ hfuel
      cases hcases : chunkTextLoop text chunkSize overlap
          (nextStart text chunkSize overlap start) fuel with
      | none => rw [hcases] at hIH; simp at hIH
      | some rest => rfl
    · rw [if_neg hlt]; rfl

theorem chunkTextLoop_mem_length (text : List Char) (chunkSize overlap : Nat) :
    ∀ fuel start res,
      chunkTextLoop text chunkSize overlap start fuel = some res →
      ∀ c ∈ res, c.length ≤ chunkSize + 1 := by
  intro fuel
  induction fuel with
  | zero => intro start res h; simp [chunkTextLoop] at h
  | succ fuel ih =>
    intro start res h c hc
    simp only [chunkTextLoop] at h
    by_cases hlt : start < text.length
    · rw [if_pos hlt] at h
      cases hcases : chunkTextLoop text chunkSize overlap
          (nextStart text chunkSize overlap start) fuel with
      | none => rw [hcases] at h; simp at h
      | some rest =>
        rw [hcases] at h
        simp only [Option.some.injEq] at h
        subst h
        by_cases hemp : (chunkAt text chunkSize start).isEmpty
        · rw [if_pos hemp] at hc
          exact ih _ _ hcases c hc
        · rw [if_neg hemp] at hc
          rcases List.mem_cons.mp hc with hc1 | hc2
          · subst hc1; exact chunkAt_length_le text chunkSize start
          · exact ih _ _ hcases c hc2
    · rw [if_neg hlt] at h
      injection h with h1
      subst h1
      simp at hc

/-! ## C1 and C5: chunker length bound and termination -/

/-- Claim C1, counterexample: with `chunk_size = 5` and `overlap = 0` on the
11-character text `"aaaaa.bbbb"` (length 10 > 5), `_chunk_text` produces the
chunk `"aaaaa."` of length 6 > 5: the backward boundary search begins at
look-back offset 0, which inspects `text[end]` — the character just past the
window — and on finding the period sets `end = end + 1`, producing a chunk
one character longer than `chunk_size` that `strip()` does not shorten.  So
not every chunk has length at most `chunk_size`. -/
theorem c1_counterexample :
    ¬ (∀ c ∈ chunkText ("aaaaa.bbbb".toList) 5 0, c.length ≤ 5) := by
  decide

/-- Claim C1, amended: for every text longer than `chunk_size` and every
`chunk_size` and `overlap`, every chunk returned by
`_chunk_text(text, chunk_size, overlap)` has length at most
`chunk_size + 1`; the bound `chunk_size` itself can be exceeded (by exactly
one character) only via the look-back-offset-0 boundary hit. -/
theorem c1_amended_chunk_length :
    ∀ (text : List Char) (chunkSize overlap : Nat), chunkSize < text.length →
      ∀ c ∈ chunkText text chunkSize overlap, c.length ≤ chunkSize + 1 := by
  intro text chunkSize overlap hlen c hc
  rw [chunkText, if_neg (by omega)] at hc
  have hsome := chunkTextLoop_isSome text chunkSize overlap (text.length + 1) 0
    (by omega)
  cases heq : chunkTextLoop text chunkSize overlap 0 (text.length + 1) with
  | none => rw [heq] at hsome; simp at hsome
  | some res =>
    rw [heq] at hc
    simp only [Option.getD_some] at hc
    exact chunkTextLoop_mem_length text chunkSize overlap _ 0 res heq c hc

/-- Witness for C1 (amended) at the concrete text `"aaaaa.bbbb"`,
`chunk_size = 5`, `overlap = 0`, chunk `"aaaaa."`. -/
theorem c1_amended_chunk_length_witness :
    5 < ("aaaaa.bbbb".toList).length
    ∧ ("aaaaa.".toList) ∈ chunkText ("aaaaa.bbbb".toList) 5 0
    ∧ ("aaaaa.".toList).length ≤ 5 + 1 :=
  ⟨by decide, by decide,
    c1_amended_chunk_length ("aaaaa.bbbb".toList) 5 0 (by decide)
      ("aaaaa.".toList) (by decide)⟩

/-- Claim C5: for every text, every `chunk_size ≥ 1` and every `overlap`
(including `overlap ≥ chunk_size`), the `while` loop of `_chunk_text`
terminates — `text.length + 1` iterations always reach the exit, because
each iteration advances `start` to `max(start + 1, end - overlap)`, which
strictly increases it (`nextStart_gt`). -/
theorem c5_chunk_text_terminates :
    ∀ (text : List Char) (chunkSize overlap : Nat), 1 ≤ chunkSize →
      (chunkTextLoop text chunkSize overlap 0 (text.length + 1)).isSome = true :=
  fun text chunkSize overlap _ =>
    chunkTextLoop_isSome text chunkSize overlap (text.length + 1) 0 (by omega)

/-- Witness for C5 at the concrete text `"ab"`, `chunk_size = 1`,
`overlap = 5` (an overlap exceeding the chunk size). -/
theorem c5_chunk_text_terminates_witness :
    1 ≤ 1
    ∧ (chunkTextLoop ("ab".toList) 1 5 0 (("ab".toList).length + 1)).isSome = true :=
  ⟨by decide, c5_chunk_text_terminates ("ab".toList) 1 5 (by decide)⟩

/-! ## C2, C7, C9: agenda item reconstruction -/

/-- Claim C2, counterexample: on the specification's §8 scenario (segment
title `"5B - Permit Application"`, filename `"5b-permit-application.md"`, a
102-character first paragraph starting "The applicant seeks approval
for..."), `_create_agenda_item` classifies the section as `"UNKNOWN"`, not
`"NEW BUSINESS"`: the section is inferred from the *title* alone, and
`"5b - permit application"` contains none of the trigger substrings
("consider", "approval", "receipt" — "application" does not contain
"approval"). -/
theorem c2_counterexample :
    (createAgendaItem scenarioTitle scenarioFilename scenarioContent).map
        AgendaItem.section_ = some "UNKNOWN"
    ∧ ¬ ((createAgendaItem scenarioTitle scenarioFilename scenarioContent).map
        AgendaItem.section_ = some "NEW BUSINESS") := by
  constructor
  · decide
  · decide

/-- Claim C2, amended: on that scenario `_create_agenda_item` returns an
AgendaItem with `item_number = "5B"`, `section = "UNKNOWN"` (not
"NEW BUSINESS"), and a description starting with "The applicant seeks
approval for". -/
theorem c2_amended_scenario :
    (createAgendaItem scenarioTitle scenarioFilename scenarioContent).map
        (fun it => (it.item_number, it.section_,
          ("The applicant seeks approval for".toList).isPrefixOf
            (it.description.getD [])))
      = some ("5B".toList, "UNKNOWN", true) := by
  decide

/-- Claim C7: for every document record whose segment title has no token
matching the item-number pattern and whose filename has no
`--<digits>-<letter>-` fallback pattern, `_create_agenda_item` returns
`None` (and, being total in this model, never raises). -/
theorem c7_no_item_number_none :
    ∀ (segment_title filename content : List Char),
      findItemNumber segment_title = none →
      findDashPattern filename = none →
      createAgendaItem segment_title filename content = none := by
  intro segment_title filename content h1 h2
  simp only [createAgendaItem, h1, h2]

/-- Witness for C7 at segment title `"Approval of Minutes"` (no digits) and
filename `"board-minutes.md"` (no `--<digits>-<letter>-` pattern). -/
theorem c7_no_item_number_none_witness :
    findItemNumber ("Approval of Minutes".toList) = none
    ∧ findDashPattern ("board-minutes.md".toList) = none
    ∧ createAgendaItem ("Approval of Minutes".toList) ("board-minutes.md".toList)
        [] = none :=
  ⟨by decide, by decide,
    c7_no_item_number_none ("Approval of Minutes".toList)
      ("board-minutes.md".toList) [] (by decide) (by decide)⟩

/-- Claim C9: every AgendaItem constructed by `_create_agenda_item` has its
`id` field equal to its `item_number` field — both are set to the extracted
item number (lines 289 and 291), so a `get_agenda_item` lookup matching
either field finds the same item. -/
theorem c9_id_eq_item_number :
    ∀ (segment_title filename content : List Char) (item : AgendaItem),
      createAgendaItem segment_title filename content = some item →
      item.id = item.item_number := by
  intro segment_title filename content item h
  unfold createAgendaItem at h
  cases h1 : findItemNumber segment_title with
  | some n =>
    rw [h1] at h
    simp only [Option.some.injEq] at h
    subst h
    rfl
  | none =>
    rw [h1] at h
    cases h2 : findDashPattern filename with
    | some n =>
      rw [h2] at h
      simp only [Option.some.injEq] at h
      subst h
      rfl
    | none => rw [h2] at h; simp at h

/-- Witness for C9 at segment title `"1A"`, filename `"x.md"`, empty
content. -/
theorem c9_id_eq_item_number_witness :
    createAgendaItem ("1A".toList) ("x.md".toList) []
        = some (buildAgendaItem ("1A".toList) ("1A".toList) ("x.md".toList) [])
    ∧ (buildAgendaItem ("1A".toList) ("1A".toList) ("x.md".toList) []).id
        = (buildAgendaItem ("1A".toList) ("1A".toList) ("x.md".toList) []).item_number :=
  ⟨by decide,
    c9_id_eq_item_number ("1A".toList) ("x.md".toList) []
      (buildAgendaItem ("1A".toList) ("1A".toList) ("x.md".toList) []) (by decide)⟩

/-! ## Helper lemmas about relevance scoring -/

theorem wordScore_nonneg (contentLower word : List Char) :
    0 ≤ wordScore contentLower word := by
  unfold wordScore
  split_ifs with h1 h2
  · exact le_refl 0
  · exact le_min (by positivity) (by norm_num)
  · exact le_refl 0

theorem docTypeBonus_nonneg (query : List Char) (chunk : DocumentChunk) :
    0 ≤ docTypeBonus query chunk := by
  simp only [docTypeBonus]
  split_ifs <;> norm_num

theorem rawRelevanceScore_nonneg (query : List Char) (chunk : DocumentChunk) :
    0 ≤ rawRelevanceScore query chunk := by
  simp only [rawRelevanceScore]
  have h1 : (0 : ℝ) ≤ if pyIn query (pyLower chunk.content) then (3.0 : ℝ) else 0 := by
    split_ifs <;> norm_num
  have h2 : (0 : ℝ) ≤
      ((pySplit query).map (fun w => wordScore (pyLower chunk.content) w)).sum :=
    List.sum_nonneg (by
      intro x hx
      obtain ⟨w, _, hw⟩ := List.mem_map.mp hx
      exact hw ▸ wordScore_nonneg (pyLower chunk.content) w)
  have h3 : (0 : ℝ) ≤ (chunk.keywords.map (fun kw =>
      ((pySplit query).map (fun w =>
        if pyIn (pyLower w) (pyLower kw) then (1.0 : ℝ) else 0)).sum)).sum :=
    List.sum_nonneg (by
      intro x hx
      obtain ⟨kw, _, hkw⟩ := List.mem_map.mp hx
      refine hkw ▸ List.sum_nonneg ?_
      intro y hy
      obtain ⟨w, _, hw⟩ := List.mem_map.mp hy
      subst hw
      split_ifs <;> norm_num)
  have h4 := docTypeBonus_nonneg query chunk
  exact add_nonneg (add_nonneg (add_nonneg h1 h2) h3) h4

/-! ## C10: the relevance score is total and non-negative -/

/-- Claim C10: for every query and every chunk — including one whose
content is empty — `_calculate_relevance_score` is total and non-negative,
and the length-normalization division is applied only to nonempty content
(on empty content the returned score is exactly the raw unnormalized
score, so no division by zero occurs). -/
theorem c10_score_total_nonneg :
    ∀ (query : List Char) (chunk : DocumentChunk),
      0 ≤ calcRelevanceScore query chunk
      ∧ (chunk.content = [] →
          calcRelevanceScore query chunk = rawRelevanceScore query chunk) := by
  intro query chunk
  constructor
  · unfold calcRelevanceScore
    split_ifs with h
    · exact div_nonneg (rawRelevanceScore_nonneg query chunk) (Real.sqrt_nonneg _)
    · exact rawRelevanceScore_nonneg query chunk
  · intro hc
    rw [calcRelevanceScore, if_neg (by simp [hc])]

/-- Witness for C10's empty-content case at the empty query and a chunk
with empty content. -/
theorem c10_score_total_nonneg_witness :
    calcRelevanceScore [] (DocumentChunk.mk "c0" [] [] 0 0 [] [])
      = rawRelevanceScore [] (DocumentChunk.mk "c0" [] [] 0 0 [] []) :=
  (c10_score_total_nonneg [] (DocumentChunk.mk "c0" [] [] 0 0 [] [])).2 rfl

/-! ## Helper lemmas about the search engine -/

theorem mem_insertByScoreDesc (x e : Evidence) (l : List Evidence) :
    x ∈ insertByScoreDesc e l ↔ x = e ∨ x ∈ l := by
  induction l with
  | nil => simp [insertByScoreDesc]
  | cons b t ih =>
    rw [insertByScoreDesc]
    split_ifs
    · simp [List.mem_cons]
    · simp only [List.mem_cons, ih]
      tauto

theorem mem_sortByScoreDesc (x : Evidence) (l : List Evidence) :
    x ∈ sortByScoreDesc l ↔ x ∈ l := by
  induction l with
  | nil => simp [sortByScoreDesc]
  | cons e t ih =>
    rw [sortByScoreDesc, mem_insertByScoreDesc]
    simp only [List.mem_cons, ih]

theorem sorted_insertByScoreDesc (e : Evidence) (l : List Evidence)
    (h : List.Sorted scoreGE l) :
    List.Sorted scoreGE (insertByScoreDesc e l) := by
  induction l with
  | nil => simp [insertByScoreDesc]
  | cons b t ih =>
    rw [List.sorted_cons] at h
    rw [insertByScoreDesc]
    split_ifs with hble
    · rw [List.sorted_cons]
      refine ⟨?_, by rw [List.sorted_cons]; exact h⟩
      intro x hx
      rcases List.mem_cons.mp hx with hx1 | hx2
      · subst hx1; exact hble
      · exact le_trans (h.1 x hx2) hble
    · rw [List.sorted_cons]
      refine ⟨?_, ih h.2⟩
      intro x hx
      rcases (mem_insertByScoreDesc x e t).mp hx with hx1 | hx2
      · subst hx1; exact le_of_not_le hble
      · exact h.1 x hx2

theorem sorted_sortByScoreDesc (l : List Evidence) :
    List.Sorted scoreGE (sortByScoreDesc l) := by
  induction l with
  | nil => simp [sortByScoreDesc]
  | cons e t ih => exact sorted_insertByScoreDesc e (sortByScoreDesc t) ih

theorem scoreChunks_pos (st : MeetingCorpusState) (queryLower : List Char)
    (filters : List (String × List Char)) (e : Evidence)
    (h : e ∈ scoreChunks st queryLower filters) :
    0 < e.relevance_score := by
  simp only [scoreChunks, List.mem_filterMap] at h
  obtain ⟨ck, _, hck⟩ := h
  by_cases h1 : 0 < calcRelevanceScore queryLower ck.2
  · rw [if_pos h1] at hck
    by_cases h2 : filters ≠ [] ∧ ¬ applyFilters ck.2 filters = true
    · rw [if_pos h2] at hck
      exact absurd hck (by simp)
    · rw [if_neg h2] at hck
      have he := Option.some.inj hck
      rw [← he]
      exact h1
  · rw [if_neg h1] at hck
    exact absurd hck (by simp)

/-! ## C3, C4, C6, C8: search contract and indexing -/

/-- Claim C3: for every rebuild oracle, corpus state, query, filter map and
`top_k = n`, `search` returns at most `n` Evidence objects, sorted in
descending order of `relevance_score`; in particular `top_k = 0` yields the
empty sequence. -/
theorem c3_search_topk_sorted :
    ∀ (rebuild : MeetingCorpusState → Bool × MeetingCorpusState)
      (st : MeetingCorpusState) (query : List Char)
      (filters : List (String × List Char)) (n : Nat),
      (search rebuild st query filters n).length ≤ n
      ∧ List.Sorted scoreGE (search rebuild st query filters n)
      ∧ search rebuild st query filters 0 = [] := by
  intro rebuild st query filters n
  refine ⟨?_, ?_, ?_⟩ <;> simp only [search] <;> split_ifs
  · exact List.length_take_le _ _
  · exact List.length_take_le _ _
  · simp
  · exact (sorted_sortByScoreDesc _).sublist (List.take_sublist _ _)
  · exact (sorted_sortByScoreDesc _).sublist (List.take_sublist _ _)
  · simp
  · exact List.take_zero _
  · exact List.take_zero _
  · rfl

/-- Claim C4: every Evidence object returned by `search` has a strictly
positive `relevance_score` — a chunk whose computed score is 0 fails the
`score > 0` test and is excluded from the scored list entirely, so it is
never ranked at all. -/
theorem c4_search_scores_positive :
    ∀ (rebuild : MeetingCorpusState → Bool × MeetingCorpusState)
      (st : MeetingCorpusState) (query : List Char)
      (filters : List (String × List Char)) (n : Nat),
      (search rebuild st query filters n).Forall
        (fun e => 0 < e.relevance_score) := by
  intro rebuild st query filters n
  rw [List.forall_iff_forall_mem]
  intro e he
  revert he
  simp only [search]
  split_ifs <;> intro he
  · exact scoreChunks_pos _ _ _ e
      ((mem_sortByScoreDesc _ _).mp ((List.take_sublist _ _).subset he))
  · exact scoreChunks_pos _ _ _ e
      ((mem_sortByScoreDesc _ _).mp ((List.take_sublist _ _).subset he))
  · simp at he

/-- Claim C6: for every query, if the corpus is not indexed, `search` first
attempts `index_corpus()`, and if that attempt returns false it returns the
empty sequence rather than raising. -/
theorem c6_search_unindexed_graceful :
    ∀ (rebuild : MeetingCorpusState → Bool × MeetingCorpusState)
      (st : MeetingCorpusState) (query : List Char)
      (filters : List (String × List Char)) (n : Nat),
      st.indexed = false → (rebuild st).1 = false →
      search rebuild st query filters n = [] := by
  intro rebuild st query filters n h1 h2
  simp [search, indexCorpus, h1, h2]

/-- Witness for C6 at the empty unindexed state and the always-failing
rebuild oracle. -/
theorem c6_search_unindexed_graceful_witness :
    emptyUnindexedState.indexed = false
    ∧ (rebuildFail emptyUnindexedState).1 = false
    ∧ search rebuildFail emptyUnindexedState ("permit".toList) [] 10 = [] :=
  ⟨rfl, rfl,
    c6_search_unindexed_graceful rebuildFail emptyUnindexedState
      ("permit".toList) [] 10 rfl rfl⟩

/-- Claim C8: for every corpus state already indexed, `index_corpus()`
without `force_rebuild` returns true with the in-memory state (documents,
chunks, agenda items) unchanged, so the corpus stats after the call are
identical to the stats before it. -/
theorem c8_index_corpus_noop :
    ∀ (rebuild : MeetingCorpusState → Bool × MeetingCorpusState)
      (st : MeetingCorpusState) (sz : ℚ),
      st.indexed = true →
      indexCorpus rebuild st false = (true, st)
      ∧ getCorpusStats (indexCorpus rebuild st false).2 sz = getCorpusStats st sz := by
  intro rebuild st sz h
  have h1 : indexCorpus rebuild st false = (true, st) := by
    simp [indexCorpus, h]
  exact ⟨h1, by rw [h1]⟩

/-- Witness for C8 at the empty indexed state and the always-failing
rebuild oracle (which the no-op path never consults). -/
theorem c8_index_corpus_noop_witness :
    emptyIndexedState.indexed = true
    ∧ indexCorpus rebuildFail emptyIndexedState false = (true, emptyIndexedState)
    ∧ getCorpusStats (indexCorpus rebuildFail emptyIndexedState false).2 0
        = getCorpusStats emptyIndexedState 0 :=
  ⟨rfl,
    (c8_index_corpus_noop rebuildFail emptyIndexedState 0 rfl).1,
    (c8_index_corpus_noop rebuildFail emptyIndexedState 0 rfl).2⟩

end TownBoard
